import Mathlib

/-!
Verification of the session-based authentication controller
(src/src/controller/authen_controller.py, class AuthenticationController).

Embedding conventions:

* Time is a natural number of seconds.  Each controller operation observes a
  single clock reading `now` (the source calls `datetime.now()`; within one
  call the readings are treated as one instant).  The 30-minute idle timeout
  `timedelta(minutes=30)` becomes `session_timeout = 30 * 60` seconds, and the
  comparison `(now - last_activity) > timedelta(minutes=30)` becomes
  `session_timeout < now - last_activity` (truncated `Nat` subtraction agrees
  with the source: a non-positive elapsed time never exceeds the timeout).

* The SHA-256 hex digest `hashlib.sha256(s.encode()).hexdigest()` is
  abstracted as an explicit function parameter `H : String → String`: every
  claim under verification depends only on the digest being a deterministic
  function of its input (and, for token distinctness, on the absence of
  collisions), never on the actual digest bits.

* The process-wide dict `self.active_sessions` is an association list
  `List (String × Session)` with Python dict semantics: `dictLookup` is
  subscript read, `dictInsert` is subscript assignment (replaces the entry in
  place when the key is present, appends otherwise), `dictErase` is `del`,
  `dictContains` is the `in` operator.

* The injected user model is `Option (String → Option UserRecord)`:
  `none` when `set_user_model` was never called, otherwise the function
  standing for `get_user_by_username`.

* Fields keep the source dict keys as names; Python `None` becomes `none`.
-/

/-- A user record as returned by the external user store: the fields the
controller reads via `user.get(...)`. -/
structure UserRecord where
  user_id : Nat
  password_hash : String
  user_type : String
  status : String
deriving Repr, DecidableEq

/-- One entry of `self.active_sessions`, exactly the dict built in `login`. -/
structure Session where
  user_id : Nat
  username : String
  user_type : String
  login_time : Nat
  last_activity : Nat
deriving Repr, DecidableEq

/-- The mutable state of an `AuthenticationController` instance:
`self.user_model` and `self.active_sessions`. -/
structure AuthState where
  user_model : Option (String → Option UserRecord)
  active_sessions : List (String × Session)

/-- Result dict of `login`. -/
structure LoginResult where
  status : String
  message : String
  user_id : Option Nat
  user_type : Option String
  session_token : Option String
deriving Repr, DecidableEq

/-- Result dict of `logout`. -/
structure LogoutResult where
  status : String
  message : String
deriving Repr, DecidableEq

/-- Result dict of `verify_session`. -/
structure VerifyResult where
  is_valid : Bool
  user_id : Option Nat
  user_type : Option String
  message : String
deriving Repr, DecidableEq

/-- Result dict of `get_user_by_session` (when not `None`). -/
structure SessionUser where
  user_id : Nat
  username : String
  user_type : String
deriving Repr, DecidableEq

/-- Python dict subscript read: first (unique) binding of the key. -/
def dictLookup {β : Type} (k : String) : List (String × β) → Option β
  | [] => none
  | (k₁, v) :: rest => if k₁ = k then some v else dictLookup k rest

/-- Python dict subscript assignment: replace the binding in place when the
key is present, append otherwise. -/
def dictInsert {β : Type} (k : String) (v : β) : List (String × β) → List (String × β)
  | [] => [(k, v)]
  | (k₁, v₁) :: rest => if k₁ = k then (k, v) :: rest else (k₁, v₁) :: dictInsert k v rest

/-- Python `del d[k]`: drop the binding of the key (dict keys are unique, so
dropping every binding of the key is the faithful rendering). -/
def dictErase {β : Type} (k : String) : List (String × β) → List (String × β)
  | [] => []
  | (k₁, v₁) :: rest =>
      if k₁ = k then dictErase k rest else (k₁, v₁) :: dictErase k rest

/-- Python `k in d`. -/
def dictContains {β : Type} (k : String) (l : List (String × β)) : Bool :=
  (dictLookup k l).isSome

/-- Source constant: the `timedelta(minutes=30)` session timeout, in seconds. -/
def session_timeout : Nat := 30 * 60

/-- Method `_hash_password`: SHA-256 hex digest of the password, with the
digest function abstracted as `H`. -/
def hash_password (H : String → String) (password : String) : String :=
  H password

/-- Method `_verify_password`: compare the digest of the supplied password
with the stored hash. -/
def verify_password (H : String → String) (password password_hash : String) : Bool :=
  hash_password H password == password_hash

/-- Method `_generate_session_token`: digest of the string
`f"{user_id}_{timestamp}"`, the clock reading rendered in decimal. -/
def generate_session_token (H : String → String) (user_id : Nat) (now : Nat) : String :=
  H (Nat.repr user_id ++ "_" ++ Nat.repr now)

/-- Method `login`: input validation, collaborator check, user lookup,
password check, status check, then token generation and session insertion. -/
def login (H : String → String) (now : Nat) (st : AuthState)
    (username password : String) : LoginResult × AuthState :=
  if username = "" ∨ password = "" then
    ({ status := "failure", message := "Username and password are required",
       user_id := none, user_type := none, session_token := none }, st)
  else
    match st.user_model with
    | none =>
        ({ status := "failure", message := "User database not configured",
           user_id := none, user_type := none, session_token := none }, st)
    | some get_user_by_username =>
        match get_user_by_username username with
        | none =>
            ({ status := "failure", message := "Invalid username or password",
               user_id := none, user_type := none, session_token := none }, st)
        | some user =>
            if ¬ verify_password H password user.password_hash then
              ({ status := "failure", message := "Invalid username or password",
                 user_id := none, user_type := none, session_token := none }, st)
            else if user.status ≠ "active" then
              ({ status := "failure", message := "User account is inactive",
                 user_id := none, user_type := none, session_token := none }, st)
            else
              let session_token := generate_session_token H user.user_id now
              let sess : Session :=
                { user_id := user.user_id, username := username,
                  user_type := user.user_type, login_time := now,
                  last_activity := now }
              ({ status := "success",
                 message := "Login successful for " ++ user.user_type,
                 user_id := some user.user_id, user_type := some user.user_type,
                 session_token := some session_token },
               { st with
                  active_sessions := dictInsert session_token sess st.active_sessions })

/-- Method `logout`: remove the session when the token is tracked, otherwise
report an invalid session token. -/
def logout (st : AuthState) (session_token : String) : LogoutResult × AuthState :=
  if dictContains session_token st.active_sessions then
    ({ status := "success", message := "Logout successful" },
     { st with active_sessions := dictErase session_token st.active_sessions })
  else
    ({ status := "failure", message := "Invalid session token" }, st)

/-- Method `verify_session`: absent token, lazy expiry of an idle session, or
refresh of `last_activity` on success. -/
def verify_session (now : Nat) (st : AuthState) (session_token : String) :
    VerifyResult × AuthState :=
  match dictLookup session_token st.active_sessions with
  | none =>
      ({ is_valid := false, user_id := none, user_type := none,
         message := "Invalid or expired session" }, st)
  | some session =>
      if session_timeout < now - session.last_activity then
        ({ is_valid := false, user_id := none, user_type := none,
           message := "Session expired" },
         { st with active_sessions := dictErase session_token st.active_sessions })
      else
        ({ is_valid := true, user_id := some session.user_id,
           user_type := some session.user_type, message := "Session is valid" },
         { st with active_sessions :=
            (dictInsert session_token ({ session with last_activity := now })
              st.active_sessions) })

/-- Method `get_user_by_session`: a pure lookup; the returned state component
records that the source method performs no write. -/
def get_user_by_session (st : AuthState) (session_token : String) :
    Option SessionUser × AuthState :=
  match dictLookup session_token st.active_sessions with
  | some session =>
      (some { user_id := session.user_id, username := session.username,
              user_type := session.user_type }, st)
  | none => (none, st)

theorem dictLookup_dictInsert_self {β : Type} (k : String) (v : β)
    (l : List (String × β)) : dictLookup k (dictInsert k v l) = some v := by
  induction l with
  | nil => simp [dictInsert, dictLookup]
  | cons p rest ih =>
      obtain ⟨k₁, v₁⟩ := p
      by_cases h : k₁ = k
      · simp [dictInsert, h, dictLookup]
      · simp [dictInsert, h, dictLookup, ih]

theorem dictLookup_dictInsert_ne {β : Type} {k j : String} (v : β)
    (l : List (String × β)) (h : j ≠ k) :
    dictLookup j (dictInsert k v l) = dictLookup j l := by
  induction l with
  | nil => simp [dictInsert, dictLookup, Ne.symm h]
  | cons p rest ih =>
      obtain ⟨k₁, v₁⟩ := p
      by_cases hk : k₁ = k
      · subst hk
        simp [dictInsert, dictLookup, Ne.symm h]
      · simp [dictInsert, hk, dictLookup, ih]

theorem dictLookup_dictErase_self {β : Type} (k : String)
    (l : List (String × β)) : dictLookup k (dictErase k l) = none := by
  induction l with
  | nil => simp [dictErase, dictLookup]
  | cons p rest ih =>
      obtain ⟨k₁, v₁⟩ := p
      by_cases h : k₁ = k
      · simpa [dictErase, h] using ih
      · simp [dictErase, h, dictLookup, ih]

theorem dictLookup_dictErase_ne {β : Type} {k j : String}
    (l : List (String × β)) (h : j ≠ k) :
    dictLookup j (dictErase k l) = dictLookup j l := by
  induction l with
  | nil => simp [dictErase, dictLookup]
  | cons p rest ih =>
      obtain ⟨k₁, v₁⟩ := p
      by_cases hk : k₁ = k
      · subst hk
        simp [dictErase, dictLookup, Ne.symm h, ih]
      · simp [dictErase, hk, dictLookup, ih]

theorem dictLookup_dictInsert_cases {β : Type} {k j : String} {v w : β}
    {l : List (String × β)} (h : dictLookup j (dictInsert k v l) = some w) :
    (j = k ∧ w = v) ∨ (j ≠ k ∧ dictLookup j l = some w) := by
  by_cases hj : j = k
  · subst hj
    rw [dictLookup_dictInsert_self] at h
    exact Or.inl ⟨rfl, (Option.some.inj h).symm⟩
  · rw [dictLookup_dictInsert_ne v l hj] at h
    exact Or.inr ⟨hj, h⟩

theorem dictLookup_of_dictErase {β : Type} {k j : String} {w : β}
    {l : List (String × β)} (h : dictLookup j (dictErase k l) = some w) :
    dictLookup j l = some w := by
  by_cases hj : j = k
  · subst hj
    rw [dictLookup_dictErase_self] at h
    simp at h
  · rwa [dictLookup_dictErase_ne l hj] at h

theorem dictInsert_length_of_present {β : Type} {k : String} (v : β)
    {l : List (String × β)} (h : (dictLookup k l).isSome) :
    (dictInsert k v l).length = l.length := by
  induction l with
  | nil => simp [dictLookup] at h
  | cons p rest ih =>
      obtain ⟨k₁, v₁⟩ := p
      by_cases hk : k₁ = k
      · simp [dictInsert, hk]
      · simp [dictLookup, hk] at h
        simp [dictInsert, hk, ih h]

/-- Success-path computation of `verify_session`: a tracked session whose
idle time is within the timeout is refreshed in place and reported valid. -/
theorem verify_session_valid_eq (now : Nat) (st : AuthState) (tok : String)
    (sess : Session) (hfound : dictLookup tok st.active_sessions = some sess)
    (hfresh : now - sess.last_activity ≤ session_timeout) :
    verify_session now st tok =
      ({ is_valid := true, user_id := some sess.user_id,
         user_type := some sess.user_type, message := "Session is valid" },
       { st with active_sessions :=
          (dictInsert tok ({ sess with last_activity := now })
            st.active_sessions) }) := by
  have hnotexp : ¬ session_timeout < now - sess.last_activity := by omega
  simp [verify_session, hfound, hnotexp]

/-- A run of consecutive `verify_session` calls on one token, at the given
list of clock readings, threading the controller state. -/
def verify_chain (tok : String) : List Nat → AuthState → List VerifyResult × AuthState
  | [], st => ([], st)
  | t :: ts, st =>
      let r := verify_session t st tok
      let rest := verify_chain tok ts r.2
      (r.1 :: rest.1, rest.2)

/-- Every clock reading of the list follows the previous activity instant by
at most the session timeout. -/
def gaps_ok (prev : Nat) : List Nat → Prop
  | [] => True
  | t :: ts => t - prev ≤ session_timeout ∧ gaps_ok t ts

/-- A chain of verifications each within the timeout of the previous activity
keeps answering valid. -/
theorem verify_chain_all_valid (tok : String) :
    ∀ (ts : List Nat) (st : AuthState) (sess : Session),
      dictLookup tok st.active_sessions = some sess →
      gaps_ok sess.last_activity ts →
      ∀ r ∈ (verify_chain tok ts st).1, r.is_valid = true := by
  intro ts
  induction ts with
  | nil =>
      intro st sess _ _ r hr
      simp [verify_chain] at hr
  | cons t ts ih =>
      intro st sess hfound hgaps r hr
      obtain ⟨hgap, hrest⟩ := hgaps
      have hstep := verify_session_valid_eq t st tok sess hfound hgap
      rw [verify_chain] at hr
      simp only [hstep] at hr
      rcases List.mem_cons.mp hr with heq | hmem
      · rw [heq]
      · exact ih
          ({ st with active_sessions :=
            (dictInsert tok ({ sess with last_activity := t })
              st.active_sessions) })
          ({ sess with last_activity := t })
          (dictLookup_dictInsert_self tok _ st.active_sessions) hrest r hmem

/-- Sample session entry used to instantiate the theorems on concrete data. -/
def aliceSession : Session :=
  { user_id := 1, username := "alice", user_type := "Admin",
    login_time := 0, last_activity := 0 }

/-- Sample controller state tracking one session under token t. -/
def stAlice : AuthState :=
  { user_model := none, active_sessions := [("t", aliceSession)] }

/-- Sample controller state with an empty session table. -/
def stEmpty : AuthState :=
  { user_model := none, active_sessions := [] }

/-- Sample session entry for a second user. -/
def bobSession : Session :=
  { user_id := 7, username := "bob", user_type := "Member",
    login_time := 0, last_activity := 0 }

/-- Sample controller state tracking the second session. -/
def stBob : AuthState :=
  { user_model := none, active_sessions := [("t", bobSession)] }

/-- C1: `verify_session` on a token absent from the table returns invalid
with the InvalidOrExpired message and leaves the state unchanged; on a
present token whose idle time strictly exceeds the 30-minute timeout it
removes exactly that entry and returns invalid with the Expired message, so
a second `verify_session` on the same token then reports InvalidOrExpired. -/
theorem verify_session_absent_and_expired (now now₂ : Nat) (st : AuthState)
    (tok : String) (sess : Session)
    (hfound : dictLookup tok st.active_sessions = some sess)
    (hexp : session_timeout < now - sess.last_activity) :
    (∀ st₂ : AuthState, dictLookup tok st₂.active_sessions = none →
      verify_session now st₂ tok =
        ({ is_valid := false, user_id := none, user_type := none,
           message := "Invalid or expired session" }, st₂)) ∧
    verify_session now st tok =
      ({ is_valid := false, user_id := none, user_type := none,
         message := "Session expired" },
       { st with active_sessions := dictErase tok st.active_sessions }) ∧
    verify_session now₂
        ({ st with active_sessions := dictErase tok st.active_sessions }) tok =
      ({ is_valid := false, user_id := none, user_type := none,
         message := "Invalid or expired session" },
       { st with active_sessions := dictErase tok st.active_sessions }) := by
  refine ⟨?_, ?_, ?_⟩
  · intro st₂ habs
    simp [verify_session, habs]
  · simp [verify_session, hfound, hexp]
  · simp [verify_session, dictLookup_dictErase_self]

theorem verify_session_absent_and_expired_witness :
    verify_session 2000 stAlice "t" =
      ({ is_valid := false, user_id := none, user_type := none,
         message := "Session expired" },
       { user_model := none, active_sessions := [] }) := by
  have h := verify_session_absent_and_expired 2000 2000 stAlice "t"
      aliceSession (by decide) (by decide)
  simpa [stAlice, dictErase] using h.2.1

/-- C2: `verify_session` on a present token whose idle time is at most the
30-minute timeout refreshes last_activity to now and returns valid with the
stored user id and role, and any subsequent chain of verifications whose
consecutive gaps stay within the timeout keeps returning valid (the window
slides from the most recent activity, not from login time). -/
theorem verify_session_refresh_sliding (now : Nat) (st : AuthState)
    (tok : String) (sess : Session)
    (hfound : dictLookup tok st.active_sessions = some sess)
    (hfresh : now - sess.last_activity ≤ session_timeout) :
    verify_session now st tok =
      ({ is_valid := true, user_id := some sess.user_id,
         user_type := some sess.user_type, message := "Session is valid" },
       { st with active_sessions :=
          (dictInsert tok ({ sess with last_activity := now })
            st.active_sessions) }) ∧
    ∀ ts : List Nat, gaps_ok now ts →
      ∀ r ∈ (verify_chain tok ts (verify_session now st tok).2).1,
        r.is_valid = true := by
  have hstep := verify_session_valid_eq now st tok sess hfound hfresh
  refine ⟨hstep, ?_⟩
  intro ts hgaps r hr
  rw [hstep] at hr
  exact verify_chain_all_valid tok ts _ ({ sess with last_activity := now })
    (dictLookup_dictInsert_self tok _ st.active_sessions) hgaps r hr

theorem verify_session_refresh_sliding_witness :
    (verify_session 1000 stBob "t").1 =
      { is_valid := true, user_id := some 7, user_type := some "Member",
        message := "Session is valid" } ∧
    ∀ r ∈ (verify_chain "t" [2500, 4200] (verify_session 1000 stBob "t").2).1,
      r.is_valid = true := by
  have h := verify_session_refresh_sliding 1000 stBob "t" bobSession
      (by decide) (by decide)
  exact ⟨by simp [h.1, bobSession], h.2 [2500, 4200] (by simp [gaps_ok, session_timeout])⟩

/-- C6: `logout` on a tracked token removes exactly that entry (the token no
longer resolves, every other key is untouched) and reports success, after
which `verify_session` on the token reports invalid; `logout` on an absent
token reports the InvalidSession failure and changes nothing. -/
theorem logout_present_and_absent (st : AuthState) (tok : String)
    (now : Nat) (sess : Session)
    (hfound : dictLookup tok st.active_sessions = some sess) :
    logout st tok =
      ({ status := "success", message := "Logout successful" },
       { st with active_sessions := dictErase tok st.active_sessions }) ∧
    dictLookup tok (dictErase tok st.active_sessions) = none ∧
    (∀ j, j ≠ tok → dictLookup j (dictErase tok st.active_sessions) =
      dictLookup j st.active_sessions) ∧
    (verify_session now (logout st tok).2 tok).1 =
      { is_valid := false, user_id := none, user_type := none,
        message := "Invalid or expired session" } ∧
    (∀ st₂ : AuthState, dictLookup tok st₂.active_sessions = none →
      logout st₂ tok =
        ({ status := "failure", message := "Invalid session token" }, st₂)) := by
  refine ⟨?_, dictLookup_dictErase_self tok st.active_sessions, ?_, ?_, ?_⟩
  · simp [logout, dictContains, hfound]
  · intro j hj
    exact dictLookup_dictErase_ne st.active_sessions hj
  · simp [logout, dictContains, hfound, verify_session,
      dictLookup_dictErase_self]
  · intro st₂ habs
    simp [logout, dictContains, habs]

theorem logout_present_and_absent_witness :
    logout stAlice "t" =
      ({ status := "success", message := "Logout successful" },
       { user_model := none, active_sessions := [] }) ∧
    logout stEmpty "t" =
      ({ status := "failure", message := "Invalid session token" }, stEmpty) := by
  have h := logout_present_and_absent stAlice "t" 0 aliceSession (by decide)
  exact ⟨by simpa [stAlice, dictErase] using h.1, h.2.2.2.2 stEmpty (by decide)⟩

/-- C7: `get_user_by_session` is a pure lookup: a tracked token yields the
stored user id, username and role no matter how much idle time has elapsed
(no expiry check), an untracked token yields none, and the state after the
call is exactly the state before (no mutation, in particular no
last_activity refresh). -/
theorem get_user_by_session_pure (st : AuthState) (tok : String)
    (sess : Session)
    (hfound : dictLookup tok st.active_sessions = some sess) :
    get_user_by_session st tok =
      (some { user_id := sess.user_id, username := sess.username,
              user_type := sess.user_type }, st) ∧
    (∀ now : Nat, session_timeout < now - sess.last_activity →
      (get_user_by_session st tok).1 =
        some { user_id := sess.user_id, username := sess.username,
               user_type := sess.user_type }) ∧
    (get_user_by_session st tok).2 = st ∧
    (∀ st₂ : AuthState, dictLookup tok st₂.active_sessions = none →
      get_user_by_session st₂ tok = (none, st₂)) := by
  refine ⟨?_, ?_, ?_, ?_⟩
  · simp [get_user_by_session, hfound]
  · intro now _
    simp [get_user_by_session, hfound]
  · simp [get_user_by_session, hfound]
  · intro st₂ habs
    simp [get_user_by_session, habs]

theorem get_user_by_session_pure_witness :
    get_user_by_session stBob "t" =
      (some { user_id := 7, username := "bob", user_type := "Member" }, stBob) := by
  have h := get_user_by_session_pure stBob "t" bobSession (by decide)
  exact h.1

/-- Identity function standing in for the digest when instantiating the
theorems on concrete data: the control flow under verification is the same
for every deterministic digest. -/
def sampleHash : String → String := fun s => s

/-- Concrete user-lookup collaborator with one active and one locked user. -/
def sampleStore : String → Option UserRecord := fun u =>
  if u = "alice" then
    some { user_id := 1, password_hash := sampleHash "pw",
           user_type := "Admin", status := "active" }
  else if u = "carol" then
    some { user_id := 2, password_hash := sampleHash "pw2",
           user_type := "Member", status := "locked" }
  else none

/-- The sample alice record itself. -/
def aliceUser : UserRecord :=
  { user_id := 1, password_hash := sampleHash "pw",
    user_type := "Admin", status := "active" }

/-- The sample carol record (not active). -/
def carolUser : UserRecord :=
  { user_id := 2, password_hash := sampleHash "pw2",
    user_type := "Member", status := "locked" }

/-- Configured controller state with an empty session table. -/
def stStore : AuthState :=
  { user_model := some sampleStore, active_sessions := [] }

/-- Success-path computation of `login`: non-empty credentials, configured
store, matching hash and active status produce the success result and insert
the fresh session. -/
theorem login_success_eq (H : String → String) (now : Nat) (st : AuthState)
    (g : String → Option UserRecord) (u p : String) (user : UserRecord)
    (hu : u ≠ "") (hp : p ≠ "") (hm : st.user_model = some g)
    (hg : g u = some user) (hpw : H p = user.password_hash)
    (hact : user.status = "active") :
    login H now st u p =
      ({ status := "success",
         message := "Login successful for " ++ user.user_type,
         user_id := some user.user_id, user_type := some user.user_type,
         session_token := some (generate_session_token H user.user_id now) },
       { st with active_sessions :=
          (dictInsert (generate_session_token H user.user_id now)
            ({ user_id := user.user_id, username := u,
               user_type := user.user_type, login_time := now,
               last_activity := now }) st.active_sessions) }) := by
  simp [login, hu, hp, hm, hg, verify_password, hash_password, hpw, hact]

/-- C3: under non-empty credentials, a configured store whose record for the
username has a hash equal to the digest of the password and active status,
`login` succeeds with the user id, role label and a fresh token, inserts a
session entry whose login_time and last_activity both equal the current
time, and `verify_session` on the token at the same instant returns valid
with the same user id and role. -/
theorem login_success_and_verify (H : String → String) (now : Nat)
    (st : AuthState) (g : String → Option UserRecord) (u p : String)
    (user : UserRecord)
    (hu : u ≠ "") (hp : p ≠ "") (hm : st.user_model = some g)
    (hg : g u = some user) (hpw : H p = user.password_hash)
    (hact : user.status = "active") :
    login H now st u p =
      ({ status := "success",
         message := "Login successful for " ++ user.user_type,
         user_id := some user.user_id, user_type := some user.user_type,
         session_token := some (generate_session_token H user.user_id now) },
       { st with active_sessions :=
          (dictInsert (generate_session_token H user.user_id now)
            ({ user_id := user.user_id, username := u,
               user_type := user.user_type, login_time := now,
               last_activity := now }) st.active_sessions) }) ∧
    (verify_session now (login H now st u p).2
        (generate_session_token H user.user_id now)).1 =
      { is_valid := true, user_id := some user.user_id,
        user_type := some user.user_type, message := "Session is valid" } := by
  have hlog := login_success_eq H now st g u p user hu hp hm hg hpw hact
  refine ⟨hlog, ?_⟩
  rw [hlog]
  have hv := verify_session_valid_eq now
      ({ st with active_sessions :=
          (dictInsert (generate_session_token H user.user_id now)
            ({ user_id := user.user_id, username := u,
               user_type := user.user_type, login_time := now,
               last_activity := now }) st.active_sessions) })
      (generate_session_token H user.user_id now)
      ({ user_id := user.user_id, username := u, user_type := user.user_type,
         login_time := now, last_activity := now })
      (dictLookup_dictInsert_self _ _ st.active_sessions)
      (by simp)
  rw [hv]

theorem login_success_and_verify_witness :
    (login sampleHash 50 stStore "alice" "pw").1.status = "success" ∧
    (login sampleHash 50 stStore "alice" "pw").1.user_id = some 1 ∧
    (login sampleHash 50 stStore "alice" "pw").1.user_type = some "Admin" ∧
    (verify_session 50 (login sampleHash 50 stStore "alice" "pw").2
        (generate_session_token sampleHash 1 50)).1.is_valid = true := by
  have h := login_success_and_verify sampleHash 50 stStore sampleStore
      "alice" "pw" aliceUser (by decide) (by decide) rfl (by decide) rfl rfl
  refine ⟨by rw [h.1], by rw [h.1]; rfl, by rw [h.1]; rfl, ?_⟩
  have h2 := h.2
  simp only [aliceUser] at h2
  rw [h2]

/-- C4: `login` applies its checks in a fixed order and reports the first
failure: empty username or password, unconfigured user model, unknown
username, digest mismatch, then non-active status; every failure leaves the
controller state, in particular the session table, unchanged. -/
theorem login_failure_order (H : String → String) (now : Nat) (st : AuthState)
    (u p : String) :
    (u = "" ∨ p = "" → login H now st u p =
      ({ status := "failure", message := "Username and password are required",
         user_id := none, user_type := none, session_token := none }, st)) ∧
    (u ≠ "" → p ≠ "" → st.user_model = none → login H now st u p =
      ({ status := "failure", message := "User database not configured",
         user_id := none, user_type := none, session_token := none }, st)) ∧
    (∀ g, u ≠ "" → p ≠ "" → st.user_model = some g → g u = none →
      login H now st u p =
      ({ status := "failure", message := "Invalid username or password",
         user_id := none, user_type := none, session_token := none }, st)) ∧
    (∀ g user, u ≠ "" → p ≠ "" → st.user_model = some g → g u = some user →
      H p ≠ user.password_hash → login H now st u p =
      ({ status := "failure", message := "Invalid username or password",
         user_id := none, user_type := none, session_token := none }, st)) ∧
    (∀ g user, u ≠ "" → p ≠ "" → st.user_model = some g → g u = some user →
      H p = user.password_hash → user.status ≠ "active" → login H now st u p =
      ({ status := "failure", message := "User account is inactive",
         user_id := none, user_type := none, session_token := none }, st)) := by
  refine ⟨?_, ?_, ?_, ?_, ?_⟩
  · intro h0
    simp [login, h0]
  · intro hu hp hm
    simp [login, hu, hp, hm]
  · intro g hu hp hm hg
    simp [login, hu, hp, hm, hg]
  · intro g user hu hp hm hg hpw
    simp [login, hu, hp, hm, hg, verify_password, hash_password, hpw]
  · intro g user hu hp hm hg hpw hs
    simp [login, hu, hp, hm, hg, verify_password, hash_password, hpw, hs]

theorem login_failure_order_witness :
    login sampleHash 0 stStore "" "pw" =
      ({ status := "failure", message := "Username and password are required",
         user_id := none, user_type := none, session_token := none }, stStore) ∧
    login sampleHash 0 stEmpty "alice" "pw" =
      ({ status := "failure", message := "User database not configured",
         user_id := none, user_type := none, session_token := none }, stEmpty) ∧
    login sampleHash 0 stStore "zoe" "pw" =
      ({ status := "failure", message := "Invalid username or password",
         user_id := none, user_type := none, session_token := none }, stStore) ∧
    login sampleHash 0 stStore "alice" "wrong" =
      ({ status := "failure", message := "Invalid username or password",
         user_id := none, user_type := none, session_token := none }, stStore) ∧
    login sampleHash 0 stStore "carol" "pw2" =
      ({ status := "failure", message := "User account is inactive",
         user_id := none, user_type := none, session_token := none }, stStore) := by
  refine ⟨(login_failure_order sampleHash 0 stStore "" "pw").1 (Or.inl rfl),
    (login_failure_order sampleHash 0 stEmpty "alice" "pw").2.1
      (by decide) (by decide) rfl,
    (login_failure_order sampleHash 0 stStore "zoe" "pw").2.2.1 sampleStore
      (by decide) (by decide) rfl (by decide),
    (login_failure_order sampleHash 0 stStore "alice" "wrong").2.2.2.1
      sampleStore aliceUser (by decide) (by decide) rfl (by decide) (by decide),
    (login_failure_order sampleHash 0 stStore "carol" "pw2").2.2.2.2
      sampleStore carolUser (by decide) (by decide) rfl (by decide) rfl
      (by decide)⟩

/-- C5: with the collaborator configured and non-empty credentials, the
failure returned for a username absent from the store carries exactly the
same message text as the failure for a present username with a wrong
password, so the two cases are indistinguishable to the caller. -/
theorem login_non_enumeration (H : String → String) (now₁ now₂ : Nat)
    (st₁ st₂ : AuthState) (g₁ g₂ : String → Option UserRecord)
    (u₁ p₁ u₂ p₂ : String) (user : UserRecord)
    (hu₁ : u₁ ≠ "") (hp₁ : p₁ ≠ "") (hm₁ : st₁.user_model = some g₁)
    (hg₁ : g₁ u₁ = none)
    (hu₂ : u₂ ≠ "") (hp₂ : p₂ ≠ "") (hm₂ : st₂.user_model = some g₂)
    (hg₂ : g₂ u₂ = some user) (hpw : H p₂ ≠ user.password_hash) :
    (login H now₁ st₁ u₁ p₁).1.message = (login H now₂ st₂ u₂ p₂).1.message ∧
    (login H now₁ st₁ u₁ p₁).1.message = "Invalid username or password" ∧
    (login H now₁ st₁ u₁ p₁).1.status = "failure" ∧
    (login H now₂ st₂ u₂ p₂).1.status = "failure" := by
  have h₁ := (login_failure_order H now₁ st₁ u₁ p₁).2.2.1 g₁ hu₁ hp₁ hm₁ hg₁
  have h₂ := (login_failure_order H now₂ st₂ u₂ p₂).2.2.2.1 g₂ user
    hu₂ hp₂ hm₂ hg₂ hpw
  rw [h₁, h₂]
  exact ⟨rfl, rfl, rfl, rfl⟩

theorem login_non_enumeration_witness :
    (login sampleHash 0 stStore "zoe" "pw").1.message =
      (login sampleHash 0 stStore "alice" "wrong").1.message ∧
    (login sampleHash 0 stStore "zoe" "pw").1.message =
      "Invalid username or password" := by
  have h := login_non_enumeration sampleHash 0 0 stStore stStore
      sampleStore sampleStore "zoe" "pw" "alice" "wrong" aliceUser
      (by decide) (by decide) rfl (by decide)
      (by decide) (by decide) rfl (by decide) (by decide)
  exact ⟨h.1, h.2.1⟩

/-- Two lookups of the same key in the same table see the same entry, hence
the same last_activity. -/
theorem le_of_lookup_eq {j : String} {l : List (String × Session)}
    {s s₁ : Session} (hb : dictLookup j l = some s)
    (ha : dictLookup j l = some s₁) : s.last_activity ≤ s₁.last_activity := by
  rw [hb] at ha
  cases Option.some.inj ha
  exact Nat.le_refl _

/-- The state after `login` is either unchanged or extends the table with a
session whose last_activity is the current clock reading. -/
theorem login_state_cases (H : String → String) (now : Nat) (st : AuthState)
    (u p : String) :
    (login H now st u p).2 = st ∨
    ∃ t : String, ∃ sess : Session, sess.last_activity = now ∧
      (login H now st u p).2 =
        { st with active_sessions := dictInsert t sess st.active_sessions } := by
  by_cases h0 : u = "" ∨ p = ""
  · left; simp [login, h0]
  · cases hm : st.user_model with
    | none => left; simp [login, h0, hm]
    | some g =>
        cases hg : g u with
        | none => left; simp [login, h0, hm, hg]
        | some user =>
            by_cases hv : verify_password H p user.password_hash = true
            · by_cases hs : user.status = "active"
              · right
                refine ⟨generate_session_token H user.user_id now,
                  { user_id := user.user_id, username := u,
                    user_type := user.user_type, login_time := now,
                    last_activity := now }, rfl, ?_⟩
                simp [login, h0, hm, hg, hv, hs]
              · left; simp [login, h0, hm, hg, hv, hs]
            · left; simp [login, h0, hm, hg, hv]

/-- The state after `verify_session` is unchanged, or the table with the
token erased, or the table with the entry refreshed to the current clock
reading. -/
theorem verify_session_state_cases (now : Nat) (st : AuthState) (tok : String) :
    (verify_session now st tok).2 = st ∨
    (verify_session now st tok).2 =
      { st with active_sessions := dictErase tok st.active_sessions } ∨
    ∃ sess : Session, dictLookup tok st.active_sessions = some sess ∧
      (verify_session now st tok).2 =
        { st with active_sessions :=
           (dictInsert tok ({ sess with last_activity := now })
             st.active_sessions) } := by
  cases hl : dictLookup tok st.active_sessions with
  | none => left; simp [verify_session, hl]
  | some sess =>
      by_cases hexp : session_timeout < now - sess.last_activity
      · right; left; simp [verify_session, hl, hexp]
      · right; right; exact ⟨sess, rfl, by simp [verify_session, hl, hexp]⟩

/-- The state after `logout` is unchanged or the table with the token
erased. -/
theorem logout_state_cases (st : AuthState) (tok : String) :
    (logout st tok).2 = st ∨
    (logout st tok).2 =
      { st with active_sessions := dictErase tok st.active_sessions } := by
  by_cases h : dictContains tok st.active_sessions = true
  · right; simp [logout, h]
  · left; simp [logout, h]

/-- The state after `get_user_by_session` is always unchanged. -/
theorem get_user_by_session_state_eq (st : AuthState) (tok : String) :
    (get_user_by_session st tok).2 = st := by
  cases hl : dictLookup tok st.active_sessions <;>
    simp [get_user_by_session, hl]

/-- C9: when every stored last_activity is at most the current clock reading
(the clock never runs behind the stored timestamps), no controller operation
decreases the last_activity of any tracked session entry: login writes the
current time into a fresh entry, a successful verification rewrites the
entry to the current time, and every other path leaves entries untouched. -/
theorem last_activity_monotone (H : String → String) (now : Nat)
    (st : AuthState) (u p tok : String)
    (hclock : ∀ j sj, dictLookup j st.active_sessions = some sj →
      sj.last_activity ≤ now) :
    (∀ j s s₁, dictLookup j st.active_sessions = some s →
      dictLookup j (login H now st u p).2.active_sessions = some s₁ →
      s.last_activity ≤ s₁.last_activity) ∧
    (∀ j s s₁, dictLookup j st.active_sessions = some s →
      dictLookup j (verify_session now st tok).2.active_sessions = some s₁ →
      s.last_activity ≤ s₁.last_activity) ∧
    (∀ j s s₁, dictLookup j st.active_sessions = some s →
      dictLookup j (logout st tok).2.active_sessions = some s₁ →
      s.last_activity ≤ s₁.last_activity) ∧
    (∀ j s s₁, dictLookup j st.active_sessions = some s →
      dictLookup j (get_user_by_session st tok).2.active_sessions = some s₁ →
      s.last_activity ≤ s₁.last_activity) := by
  refine ⟨?_, ?_, ?_, ?_⟩
  · intro j s s₁ hb ha
    rcases login_state_cases H now st u p with hcase | ⟨t, sess, hlast, hcase⟩
    · rw [hcase] at ha
      exact le_of_lookup_eq hb ha
    · rw [hcase] at ha
      rcases dictLookup_dictInsert_cases ha with ⟨_, hs₁⟩ | ⟨_, hl⟩
      · rw [hs₁, hlast]
        exact hclock j s hb
      · exact le_of_lookup_eq hb hl
  · intro j s s₁ hb ha
    rcases verify_session_state_cases now st tok with
      hcase | hcase | ⟨sess, _, hcase⟩
    · rw [hcase] at ha
      exact le_of_lookup_eq hb ha
    · rw [hcase] at ha
      exact le_of_lookup_eq hb (dictLookup_of_dictErase ha)
    · rw [hcase] at ha
      rcases dictLookup_dictInsert_cases ha with ⟨_, hs₁⟩ | ⟨_, hl⟩
      · rw [hs₁]
        exact hclock j s hb
      · exact le_of_lookup_eq hb hl
  · intro j s s₁ hb ha
    rcases logout_state_cases st tok with hcase | hcase
    · rw [hcase] at ha
      exact le_of_lookup_eq hb ha
    · rw [hcase] at ha
      exact le_of_lookup_eq hb (dictLookup_of_dictErase ha)
  · intro j s s₁ hb ha
    rw [get_user_by_session_state_eq st tok] at ha
    exact le_of_lookup_eq hb ha

theorem last_activity_monotone_witness :
    aliceSession.last_activity ≤
      ({ aliceSession with last_activity := 5 } : Session).last_activity := by
  have h := last_activity_monotone sampleHash 5 stAlice "alice" "pw" "t"
      (by
        intro j sj hsj
        by_cases hj : "t" = j
        · simp [stAlice, dictLookup, hj] at hsj
          rw [← hsj]
          decide
        · simp [stAlice, dictLookup, hj] at hsj)
  exact h.2.1 "t" aliceSession ({ aliceSession with last_activity := 5 })
    (by decide) (by decide)

/-- C10: the session token is the digest of the user id and the clock
reading rendered in decimal and joined by an underscore, hence a
deterministic function of the two; two successful logins that observe the
same user id and the same clock reading produce the identical token, and
the second insert replaces the entry stored under that token instead of
creating a second one (the table does not grow). -/
theorem token_deterministic_and_replacing (H : String → String) (now : Nat)
    (st : AuthState) (g : String → Option UserRecord) (u p : String)
    (user : UserRecord)
    (hu : u ≠ "") (hp : p ≠ "") (hm : st.user_model = some g)
    (hg : g u = some user) (hpw : H p = user.password_hash)
    (hact : user.status = "active") :
    (∀ uid t : Nat, generate_session_token H uid t =
      H (Nat.repr uid ++ "_" ++ Nat.repr t)) ∧
    (login H now st u p).1.session_token =
      some (generate_session_token H user.user_id now) ∧
    (login H now (login H now st u p).2 u p).1.session_token =
      (login H now st u p).1.session_token ∧
    (login H now (login H now st u p).2 u p).2.active_sessions.length =
      (login H now st u p).2.active_sessions.length ∧
    dictLookup (generate_session_token H user.user_id now)
        (login H now (login H now st u p).2 u p).2.active_sessions =
      some ({ user_id := user.user_id, username := u,
              user_type := user.user_type, login_time := now,
              last_activity := now }) := by
  have h1 := login_success_eq H now st g u p user hu hp hm hg hpw hact
  have hm2 : (login H now st u p).2.user_model = some g := by
    rw [h1]
    exact hm
  have h2 := login_success_eq H now (login H now st u p).2 g u p user
    hu hp hm2 hg hpw hact
  refine ⟨fun uid t => rfl, by rw [h1], by rw [h2, h1], ?_, ?_⟩
  · rw [h2, h1]
    refine dictInsert_length_of_present _ ?_
    rw [dictLookup_dictInsert_self]
    rfl
  · rw [h2]
    exact dictLookup_dictInsert_self _ _ _

theorem token_deterministic_and_replacing_witness :
    (login sampleHash 9 (login sampleHash 9 stStore "alice" "pw").2
        "alice" "pw").1.session_token =
      (login sampleHash 9 stStore "alice" "pw").1.session_token ∧
    (login sampleHash 9 (login sampleHash 9 stStore "alice" "pw").2
        "alice" "pw").2.active_sessions.length =
      (login sampleHash 9 stStore "alice" "pw").2.active_sessions.length ∧
    (login sampleHash 9 stStore "alice" "pw").1.session_token =
      some (generate_session_token sampleHash 1 9) := by
  have h := token_deterministic_and_replacing sampleHash 9 stStore
      sampleStore "alice" "pw" aliceUser
      (by decide) (by decide) rfl (by decide) rfl rfl
  exact ⟨h.2.2.1, h.2.2.2.1, h.2.1⟩

/-- Numeric value of a decimal digit character. -/
def decodeDigit (c : Char) : Nat := c.toNat - 48

/-- Decimal value of a digit string, most significant digit first. -/
def decodeDigits (l : List Char) : Nat :=
  l.foldl (fun a c => 10 * a + decodeDigit c) 0

theorem decodeDigit_digitChar : ∀ m : Nat, m < 10 →
    decodeDigit (Nat.digitChar m) = m := by decide

theorem decodeDigits_append_singleton (l : List Char) (c : Char) :
    decodeDigits (l ++ [c]) = 10 * decodeDigits l + decodeDigit c := by
  simp [decodeDigits, List.foldl_append]

theorem toDigitsCore_append (b : Nat) : ∀ (fuel n : Nat) (ds : List Char),
    Nat.toDigitsCore b fuel n ds = Nat.toDigitsCore b fuel n [] ++ ds := by
  intro fuel
  induction fuel with
  | zero =>
      intro n ds
      simp [Nat.toDigitsCore]
  | succ fuel ih =>
      intro n ds
      simp only [Nat.toDigitsCore]
      by_cases h : n / b = 0
      · simp [h]
      · rw [if_neg h, if_neg h, ih (n / b) (Nat.digitChar (n % b) :: ds),
          ih (n / b) [Nat.digitChar (n % b)]]
        simp

theorem decodeDigits_toDigitsCore : ∀ fuel n : Nat, n < fuel →
    decodeDigits (Nat.toDigitsCore 10 fuel n []) = n := by
  intro fuel
  induction fuel with
  | zero =>
      intro n hn
      exact absurd hn (Nat.not_lt_zero n)
  | succ fuel ih =>
      intro n hn
      simp only [Nat.toDigitsCore]
      by_cases h : n / 10 = 0
      · rw [if_pos h]
        have hlt : n < 10 := by omega
        simp [decodeDigits, decodeDigit_digitChar n hlt, Nat.mod_eq_of_lt hlt]
      · rw [if_neg h,
          toDigitsCore_append 10 fuel (n / 10) [Nat.digitChar (n % 10)],
          decodeDigits_append_singleton,
          ih (n / 10) (by omega),
          decodeDigit_digitChar (n % 10) (by omega)]
        omega

/-- Decimal rendering of naturals is injective. -/
theorem toDigits_ten_inj {m n : Nat}
    (h : Nat.toDigits 10 m = Nat.toDigits 10 n) : m = n := by
  have hm := decodeDigits_toDigitsCore (m + 1) m (Nat.lt_succ_self m)
  have hn := decodeDigits_toDigitsCore (n + 1) n (Nat.lt_succ_self n)
  simp only [Nat.toDigits] at h
  rw [← hm, ← hn, h]

/-- Tokens derived for the same user id at distinct clock readings have
distinct derivation strings, so a collision-free digest keeps them
distinct. -/
theorem generate_session_token_inj (H : String → String)
    (hinj : Function.Injective H) (uid : Nat) {n₁ n₂ : Nat} (hne : n₁ ≠ n₂) :
    generate_session_token H uid n₁ ≠ generate_session_token H uid n₂ := by
  intro h
  apply hne
  have hs := hinj h
  have hdata := congrArg String.data hs
  simp only [String.data_append] at hdata
  have htail : (Nat.repr n₁).data = (Nat.repr n₂).data :=
    List.append_cancel_left hdata
  exact toDigits_ten_inj htail

/-- C8 as stated fails on the code: the token depends only on the user id
and the observed clock reading, so two successful login calls that observe
the same clock reading return the very same token (equal derivation strings
give equal digests; the source timestamp can repeat on a coarse clock). -/
theorem login_token_reuse_cex :
    (login sampleHash 5 stStore "alice" "pw").1.status = "success" ∧
    (login sampleHash 5 (login sampleHash 5 stStore "alice" "pw").2
        "alice" "pw").1.status = "success" ∧
    (login sampleHash 5 stStore "alice" "pw").1.session_token =
      (login sampleHash 5 (login sampleHash 5 stStore "alice" "pw").2
        "alice" "pw").1.session_token ∧
    (login sampleHash 5 stStore "alice" "pw").1.session_token.isSome = true :=
  ⟨rfl, rfl, rfl, rfl⟩

/-- C8 amended: two successful login calls for the same user id whose clock
readings differ return distinct tokens, provided the digest function does
not collide on the derivation strings (injectivity abstracts the collision
resistance of SHA-256); without the distinct-reading hypothesis the tokens
can coincide. -/
theorem login_tokens_distinct (H : String → String)
    (hinj : Function.Injective H) (now₁ now₂ : Nat) (st₁ st₂ : AuthState)
    (g₁ g₂ : String → Option UserRecord) (u₁ p₁ u₂ p₂ : String)
    (user₁ user₂ : UserRecord)
    (hu₁ : u₁ ≠ "") (hp₁ : p₁ ≠ "") (hm₁ : st₁.user_model = some g₁)
    (hg₁ : g₁ u₁ = some user₁) (hpw₁ : H p₁ = user₁.password_hash)
    (hact₁ : user₁.status = "active")
    (hu₂ : u₂ ≠ "") (hp₂ : p₂ ≠ "") (hm₂ : st₂.user_model = some g₂)
    (hg₂ : g₂ u₂ = some user₂) (hpw₂ : H p₂ = user₂.password_hash)
    (hact₂ : user₂.status = "active")
    (huid : user₁.user_id = user₂.user_id) (hne : now₁ ≠ now₂) :
    (login H now₁ st₁ u₁ p₁).1.session_token ≠
      (login H now₂ st₂ u₂ p₂).1.session_token := by
  rw [login_success_eq H now₁ st₁ g₁ u₁ p₁ user₁ hu₁ hp₁ hm₁ hg₁ hpw₁ hact₁,
    login_success_eq H now₂ st₂ g₂ u₂ p₂ user₂ hu₂ hp₂ hm₂ hg₂ hpw₂ hact₂]
  show some (generate_session_token H user₁.user_id now₁) ≠
    some (generate_session_token H user₂.user_id now₂)
  intro hcontra
  have h := Option.some.inj hcontra
  rw [huid] at h
  exact generate_session_token_inj H hinj user₂.user_id hne h

theorem login_tokens_distinct_witness :
    (login sampleHash 5 stStore "alice" "pw").1.session_token ≠
      (login sampleHash 6 stStore "alice" "pw").1.session_token :=
  login_tokens_distinct sampleHash (fun _ _ h => h) 5 6 stStore stStore
    sampleStore sampleStore "alice" "pw" "alice" "pw" aliceUser aliceUser
    (by decide) (by decide) rfl (by decide) rfl rfl
    (by decide) (by decide) rfl (by decide) rfl rfl rfl (by decide)
